import Mathlib

/-!
# Data availability node: signing pipeline and peer resolution

Shallow embedding of

* `services/datacom/datacom.go`: `DataComEndpoints`, `NewDataComEndpoints`, `SignSequence`;
* `synchronizer/rpc.go`: `rpcTimeout`, `resolveWithMember`.

Code that these two files call but that is not part of them (signature recovery, signing,
the database, the transaction manager, the RPC client) is not given a fixed meaning here:
it is a parameter (`Externals`, `DBInterface`, `Network`), and every theorem holds for all
values of these parameters. Calls to the side-effecting collaborators are recorded in a list
of `Call` events, in execution order.
-/

namespace DataAvailability

/-! ## Basic types -/

/-- Go `common.Address`: 20 bytes, read as a big-endian number. -/
abbrev Address := Fin (2 ^ 160)

/-- Go `common.Hash`: 32 bytes, read as a big-endian number. -/
abbrev Hash := Fin (2 ^ 256)

/-- One byte. -/
abbrev Byte := Fin 256

/-- Go `[]byte` and `types.ArgBytes`. -/
abbrev Bytes := List Byte

/-- Go `error` values that are not nil, identified by their message. -/
abbrev Error := String

/-- Go `*ecdsa.PrivateKey` when not nil; a nil pointer is `none : Option PrivateKey`. -/
abbrev PrivateKey := Nat

/-- Go `pgx.Tx`: a handle on an open database transaction. -/
abbrev Tx := Nat

/-- The zero value `common.Address{}`. -/
def Address.zero : Address := ⟨0, by norm_num⟩

/-- Go `Address.Cmp`: byte-wise comparison, negative, zero or positive. -/
def Address.Cmp (a b : Address) : Int :=
  if a.val < b.val then -1 else if a.val = b.val then 0 else 1

/-- Go `context.Context`, reduced to its timeout in nanoseconds (`none`: no deadline). -/
structure Context where
  timeout : Option Nat
deriving DecidableEq, Repr

/-- Go `context.Background()`. -/
def Context.Background : Context := { timeout := none }

/-- Go `context.WithTimeout(parent, d)`: the earlier of the parent deadline and `d`. -/
def Context.WithTimeout (parent : Context) (d : Nat) : Context :=
  match parent.timeout with
  | none => { timeout := some d }
  | some p => { timeout := some (min p d) }

/-- Go `time.Second`, in nanoseconds. -/
def Second : Nat := 1000000000

/-! ## Sequences -/

/-- Go `sequence.Sequence`: a list of batch payloads. -/
abbrev Sequence := List Bytes

/-- Go `sequence.SignedSequence`. -/
structure SignedSequence where
  Sequence : List Bytes
  Signature : Bytes
deriving DecidableEq, Repr

/-- The hash-to-bytes mapping returned by `Sequence.OffChainData()`, as an association list. -/
abbrev OffChainDataMap := List (Hash × Bytes)

/-! ## RPC results -/

/-- Go `types.RPCError`. -/
structure RPCError where
  code : Int
  message : String
deriving DecidableEq, Repr

/-- Go `types.NewRPCError`. -/
def NewRPCError (code : Int) (message : String) : RPCError :=
  { code := code, message := message }

/-- The `interface{}` values that `SignSequence` and its scoped function return. -/
inductive Value where
  | null
  | str (s : String)
  | bytes (b : Bytes)
deriving DecidableEq, Repr

/-- A Go result pair `(interface{}, types.Error)`. -/
abbrev RPCResult := Value × Option RPCError

/-! ## Collaborators -/

/-- Calls to side-effecting collaborators, recorded in execution order.
`NewDbTxScope` marks the entry into the transaction manager and `NewDbTxScopeReturn` its
return; the events between the two happen inside the transaction scope. -/
inductive Call where
  | NewDbTxScope
  | StoreOffChainData (ctx : Context) (od : OffChainDataMap) (dbTx : Tx)
  | NewDbTxScopeReturn
  | Sign (s : Sequence) (privateKey : Option PrivateKey)
deriving DecidableEq, Repr

/-- Go `DBInterface`: the database, with the one method used here. `none` is a nil error. -/
structure DBInterface where
  StoreOffChainData : Context → OffChainDataMap → Tx → Option Error

/-- Go `synchronizer.SequencerTracker`, reduced to the address `GetAddr()` returns. -/
structure SequencerTracker where
  addr : Address
deriving DecidableEq, Repr

/-- Go `SequencerTracker.GetAddr`. -/
def SequencerTracker.GetAddr (st : SequencerTracker) : Address := st.addr

/-- Go `jsonrpc.DBTxManager`: a struct without fields. -/
structure DBTxManager where
deriving DecidableEq, Repr

/-- Behaviour of the code that `SignSequence` calls and that lives outside
`services/datacom/datacom.go`. Every field is a free parameter.

* `Signer`: `SignedSequence.Signer()`, the recovered address and the error (`none`: nil).
* `OffChainData`: `Sequence.OffChainData()`.
* `Sign`: `Sequence.Sign(privateKey)`; the key may be nil.
* `DefaultErrorCode`: `types.DefaultErrorCode`.
* `scopes`, `scopeResult`: the transaction manager. `scopes` lists the context and
  transaction of each run of the scoped function that `NewDbTxScope` performs (a manager
  that cannot open a transaction performs none), and `scopeResult rs` is what `NewDbTxScope`
  returns when these runs returned `rs`. -/
structure Externals where
  Signer : SignedSequence → Address × Option Error
  OffChainData : Sequence → OffChainDataMap
  Sign : Sequence → Option PrivateKey → Except Error SignedSequence
  DefaultErrorCode : Int
  scopes : List (Context × Tx)
  scopeResult : List RPCResult → RPCResult

/-- Go `DBTxManager.NewDbTxScope(db, scopedFn)`: the manager runs the scoped function as
`x.scopes` says and returns `x.scopeResult` of the results. The calls of the scoped function
are recorded between the entry and the return event. -/
def DBTxManager.NewDbTxScope (_txMan : DBTxManager) (x : Externals) (_db : DBInterface)
    (scopedFn : Context → Tx → List Call × RPCResult) : List Call × RPCResult :=
  let runs := x.scopes.map (fun p => scopedFn p.1 p.2)
  ([Call.NewDbTxScope] ++ (runs.map (fun r => r.1)).flatten ++ [Call.NewDbTxScopeReturn],
    x.scopeResult (runs.map (fun r => r.2)))

/-! ## `services/datacom/datacom.go` -/

/-- Go `DataComEndpoints`. -/
structure DataComEndpoints where
  db : DBInterface
  txMan : DBTxManager
  privateKey : Option PrivateKey
  sequencerTracker : SequencerTracker
  permitApiAddress : Address

/-- Go `NewDataComEndpoints`: `txMan` and `permitApiAddress` are not set and keep their zero
values. -/
def NewDataComEndpoints (db : DBInterface) (privateKey : Option PrivateKey)
    (sequencerTracker : SequencerTracker) : DataComEndpoints :=
  { db := db
    txMan := {}
    privateKey := privateKey
    sequencerTracker := sequencerTracker
    permitApiAddress := Address.zero }

/-- What one execution of `SignSequence` does: the calls it makes and the pair it returns. -/
structure Outcome where
  calls : List Call
  value : Value
  err : Option RPCError
deriving DecidableEq, Repr

/-- The function literal that `SignSequence` passes to `NewDbTxScope`. -/
def SignSequence.scopedFn (x : Externals) (d : DataComEndpoints)
    (signedSequence : SignedSequence) (ctx : Context) (dbTx : Tx) : List Call × RPCResult :=
  let od := x.OffChainData signedSequence.Sequence
  match d.db.StoreOffChainData ctx od dbTx with
  | some _ =>
    ([Call.StoreOffChainData ctx od dbTx],
      (Value.str "0x0", some (NewRPCError x.DefaultErrorCode "failed to store offchain data")))
  | none => ([Call.StoreOffChainData ctx od dbTx], (Value.null, none))

/-- Go `DataComEndpoints.SignSequence`. The `log.Infof` line is left out. -/
def SignSequence (x : Externals) (d : DataComEndpoints) (signedSequence : SignedSequence) :
    Outcome :=
  -- Verify that the request comes from the sequencer
  let sender := (x.Signer signedSequence).1
  let err := (x.Signer signedSequence).2
  if err ≠ none ∨ sender.Cmp Address.zero = 0 then
    { calls := []
      value := Value.str "0x0"
      err := some (NewRPCError x.DefaultErrorCode "failed to verify sender") }
  else if sender ≠ d.sequencerTracker.GetAddr ∧ sender ≠ d.permitApiAddress then
    { calls := []
      value := Value.str "0x0"
      err := some (NewRPCError x.DefaultErrorCode "unauthorized") }
  else
    -- Store off-chain data by hash (hash(L2Data): L2Data)
    let scope := d.txMan.NewDbTxScope x d.db (SignSequence.scopedFn x d signedSequence)
    if scope.2.2 ≠ none then
      { calls := scope.1
        value := Value.str "0x0"
        err := some (NewRPCError x.DefaultErrorCode "failed to store offchain data") }
    else
      -- Sign
      match x.Sign signedSequence.Sequence d.privateKey with
      | Except.error _ =>
        { calls := scope.1 ++ [Call.Sign signedSequence.Sequence d.privateKey]
          value := Value.str "0x0"
          err := some (NewRPCError x.DefaultErrorCode "failed to sign") }
      | Except.ok signedSequenceByMe =>
        -- Return signature
        { calls := scope.1 ++ [Call.Sign signedSequence.Sequence d.privateKey]
          value := Value.bytes signedSequenceByMe.Signature
          err := none }

/-! ## `synchronizer/rpc.go` -/

/-- Go `etherman.DataCommitteeMember`. -/
structure DataCommitteeMember where
  Addr : Address
  URL : String
deriving DecidableEq, Repr

/-- Go `offchaindata.OffChainData`. -/
structure OffChainData where
  Key : Hash
  Value : Bytes
deriving DecidableEq, Repr

/-- Go `client.Client`: an RPC client bound to one URL. -/
structure Client where
  url : String
deriving DecidableEq, Repr

/-- Go `client.New`. -/
def Client.New (url : String) : Client := { url := url }

/-- One `GetOffChainData` request on the wire: the endpoint, the context and the key. -/
structure Request where
  url : String
  ctx : Context
  key : Hash
deriving DecidableEq, Repr

/-- The peers: what a `GetOffChainData` request is answered with, bytes and error
(`none`: nil). A free parameter. -/
abbrev Network := Request → Bytes × Option Error

/-- Go `Client.GetOffChainData(ctx, hash)`: one request to the URL of the client. -/
def Client.GetOffChainData (net : Network) (cm : Client) (ctx : Context) (hash : Hash) :
    List Request × (Bytes × Option Error) :=
  let req : Request := { url := cm.url, ctx := ctx, key := hash }
  ([req], net req)

/-- Go `rpcTimeout = 3 * time.Second`. -/
def rpcTimeout : Nat := 3 * Second

/-- What one execution of `resolveWithMember` does: the requests it sends and the pair it
returns. -/
structure Resolution where
  requests : List Request
  data : OffChainData
  err : Option Error
deriving DecidableEq, Repr

/-- Go `resolveWithMember`. The `log.Debugf` line is left out. -/
def resolveWithMember (net : Network) (key : Hash) (member : DataCommitteeMember) :
    Resolution :=
  let cm := Client.New member.URL
  let ctx := Context.WithTimeout Context.Background rpcTimeout
  let reply := Client.GetOffChainData net cm ctx key
  { requests := reply.1
    data := { Key := key, Value := reply.2.1 }
    err := reply.2.2 }

/-- The store step of `SignSequence`: its call of `NewDbTxScope`, with the calls made during
it and the pair it returns. -/
def storeStep (x : Externals) (d : DataComEndpoints) (signedSequence : SignedSequence) :
    List Call × RPCResult :=
  d.txMan.NewDbTxScope x d.db (SignSequence.scopedFn x d signedSequence)

/-- The request passes the first two steps of `SignSequence`: sender recovery succeeds with a
sender that is not the zero address and that equals the sequencer address or the permit
address. -/
def Authorized (x : Externals) (d : DataComEndpoints) (signedSequence : SignedSequence) :
    Prop :=
  (x.Signer signedSequence).2 = none ∧ (x.Signer signedSequence).1 ≠ Address.zero ∧
    ((x.Signer signedSequence).1 = d.sequencerTracker.GetAddr ∨
      (x.Signer signedSequence).1 = d.permitApiAddress)

instance Authorized.instDecidable (x : Externals) (d : DataComEndpoints)
    (signedSequence : SignedSequence) : Decidable (Authorized x d signedSequence) := by
  unfold Authorized
  infer_instance

/-! ## Concrete inputs -/

/-- The address with the given number. -/
def Address.ofNat (n : Nat) : Address := ⟨n % 2 ^ 160, Nat.mod_lt _ (by norm_num)⟩

/-- A stand-in content hash for the concrete inputs: the length of the payload. -/
def exampleHash (b : Bytes) : Hash := ⟨b.length % 2 ^ 256, Nat.mod_lt _ (by norm_num)⟩

/-- A database on which every store succeeds. -/
def exampleDb : DBInterface := { StoreOffChainData := fun _ _ _ => none }

/-- A database on which every store fails. -/
def failingDb : DBInterface := { StoreOffChainData := fun _ _ _ => some "connection lost" }

/-- Collaborators for the concrete inputs. `Signer` returns the given pair; `Sign` fails on a
nil key and otherwise returns a one-byte signature made from the key; the transaction
manager runs the scoped function once, in transaction 7, and returns what it returned. -/
def exampleExternals (sender : Address) (senderErr : Option Error) : Externals :=
  { Signer := fun _ => (sender, senderErr)
    OffChainData := fun s => s.map (fun b => (exampleHash b, b))
    Sign := fun s k =>
      match k with
      | none => Except.error "nil private key"
      | some k => Except.ok { Sequence := s, Signature := [(⟨k % 256, Nat.mod_lt _ (by norm_num)⟩ : Byte)] }
    DefaultErrorCode := -32000
    scopes := [(Context.Background, 7)]
    scopeResult := fun rs => rs.headD (Value.null, none) }

/-- The collaborators of `exampleExternals`, except that the transaction manager cannot open
a transaction: it performs no run of the scoped function and returns an error. -/
def closedExternals (sender : Address) (senderErr : Option Error) : Externals :=
  { exampleExternals sender senderErr with
    scopes := []
    scopeResult := fun _ => (Value.null, some (NewRPCError (-32000) "no transaction")) }

/-- Whether a call is a `StoreOffChainData` call. -/
def Call.isStore : Call → Bool
  | Call.StoreOffChainData _ _ _ => true
  | _ => false

/-- A signed sequence with two payloads. -/
def exampleSignedSequence : SignedSequence :=
  { Sequence := [[1, 2], [3]], Signature := [9] }

/-- Endpoints with the given database, key, sequencer address and permit address. -/
def exampleEndpoints (db : DBInterface) (privateKey : Option PrivateKey)
    (sequencer permit : Address) : DataComEndpoints :=
  { db := db
    txMan := {}
    privateKey := privateKey
    sequencerTracker := { addr := sequencer }
    permitApiAddress := permit }

/-! ## Helper lemmas -/

theorem Address.Cmp_zero_iff (a : Address) : a.Cmp Address.zero = 0 ↔ a = Address.zero := by
  unfold Address.Cmp Address.zero
  constructor
  · intro h
    by_cases h0 : a.val = 0
    · exact Fin.ext h0
    · simp [h0] at h
  · intro h
    subst h
    simp

theorem scopedFn_calls (x : Externals) (d : DataComEndpoints) (ss : SignedSequence)
    (ctx : Context) (dbTx : Tx) :
    (SignSequence.scopedFn x d ss ctx dbTx).1 =
      [Call.StoreOffChainData ctx (x.OffChainData ss.Sequence) dbTx] := by
  unfold SignSequence.scopedFn
  dsimp only
  split <;> rfl

theorem scopedFn_runs_calls (x : Externals) (d : DataComEndpoints) (ss : SignedSequence)
    (l : List (Context × Tx)) :
    ((l.map (fun p => SignSequence.scopedFn x d ss p.1 p.2)).map (fun r => r.1)).flatten =
      l.map (fun p => Call.StoreOffChainData p.1 (x.OffChainData ss.Sequence) p.2) := by
  induction l with
  | nil => rfl
  | cons p l ih =>
    simp only [List.map_cons, List.flatten_cons, ih, scopedFn_calls]
    rfl

theorem filter_isStore_stores (od : OffChainDataMap) (l : List (Context × Tx)) :
    (l.map (fun p => Call.StoreOffChainData p.1 od p.2)).filter Call.isStore =
      l.map (fun p => Call.StoreOffChainData p.1 od p.2) := by
  induction l with
  | nil => rfl
  | cons p l ih =>
    simp only [List.map_cons]
    rw [List.filter_cons_of_pos (by rfl), ih]

theorem storeStep_calls (x : Externals) (d : DataComEndpoints) (ss : SignedSequence) :
    (storeStep x d ss).1 =
      [Call.NewDbTxScope] ++
        x.scopes.map (fun p => Call.StoreOffChainData p.1 (x.OffChainData ss.Sequence) p.2) ++
        [Call.NewDbTxScopeReturn] := by
  unfold storeStep DBTxManager.NewDbTxScope
  simp only [scopedFn_runs_calls]

theorem SignSequence_of_verify_fail (x : Externals) (d : DataComEndpoints)
    (ss : SignedSequence)
    (h : (x.Signer ss).2 ≠ none ∨ (x.Signer ss).1 = Address.zero) :
    SignSequence x d ss =
      { calls := []
        value := Value.str "0x0"
        err := some (NewRPCError x.DefaultErrorCode "failed to verify sender") } := by
  unfold SignSequence
  rw [← Address.Cmp_zero_iff] at h
  simp only [if_pos h]

theorem SignSequence_of_unauthorized (x : Externals) (d : DataComEndpoints)
    (ss : SignedSequence)
    (hrec : (x.Signer ss).2 = none) (hnz : (x.Signer ss).1 ≠ Address.zero)
    (hseq : (x.Signer ss).1 ≠ d.sequencerTracker.GetAddr)
    (hper : (x.Signer ss).1 ≠ d.permitApiAddress) :
    SignSequence x d ss =
      { calls := []
        value := Value.str "0x0"
        err := some (NewRPCError x.DefaultErrorCode "unauthorized") } := by
  unfold SignSequence
  have h1 : ¬ ((x.Signer ss).2 ≠ none ∨ (x.Signer ss).1.Cmp Address.zero = 0) := by
    rw [Address.Cmp_zero_iff]
    exact fun h => h.elim (fun h => h hrec) hnz
  simp only [if_neg h1, if_pos (And.intro hseq hper)]

theorem SignSequence_of_authorized (x : Externals) (d : DataComEndpoints)
    (ss : SignedSequence)
    (hrec : (x.Signer ss).2 = none) (hnz : (x.Signer ss).1 ≠ Address.zero)
    (hauth : (x.Signer ss).1 = d.sequencerTracker.GetAddr ∨
      (x.Signer ss).1 = d.permitApiAddress) :
    SignSequence x d ss =
      if (storeStep x d ss).2.2 ≠ none then
        { calls := (storeStep x d ss).1
          value := Value.str "0x0"
          err := some (NewRPCError x.DefaultErrorCode "failed to store offchain data") }
      else
        match x.Sign ss.Sequence d.privateKey with
        | Except.error _ =>
          { calls := (storeStep x d ss).1 ++ [Call.Sign ss.Sequence d.privateKey]
            value := Value.str "0x0"
            err := some (NewRPCError x.DefaultErrorCode "failed to sign") }
        | Except.ok signedSequenceByMe =>
          { calls := (storeStep x d ss).1 ++ [Call.Sign ss.Sequence d.privateKey]
            value := Value.bytes signedSequenceByMe.Signature
            err := none } := by
  unfold SignSequence
  have h1 : ¬ ((x.Signer ss).2 ≠ none ∨ (x.Signer ss).1.Cmp Address.zero = 0) := by
    rw [Address.Cmp_zero_iff]
    exact fun h => h.elim (fun h => h hrec) hnz
  have h2 : ¬ ((x.Signer ss).1 ≠ d.sequencerTracker.GetAddr ∧
      (x.Signer ss).1 ≠ d.permitApiAddress) := by
    intro h
    exact hauth.elim h.1 h.2
  simp only [if_neg h1, if_neg h2]
  rfl

theorem SignSequence_of_store_fail (x : Externals) (d : DataComEndpoints)
    (ss : SignedSequence)
    (hrec : (x.Signer ss).2 = none) (hnz : (x.Signer ss).1 ≠ Address.zero)
    (hauth : (x.Signer ss).1 = d.sequencerTracker.GetAddr ∨
      (x.Signer ss).1 = d.permitApiAddress)
    (hstore : (storeStep x d ss).2.2 ≠ none) :
    SignSequence x d ss =
      { calls := (storeStep x d ss).1
        value := Value.str "0x0"
        err := some (NewRPCError x.DefaultErrorCode "failed to store offchain data") } := by
  rw [SignSequence_of_authorized x d ss hrec hnz hauth, if_pos hstore]

theorem SignSequence_of_sign_fail (x : Externals) (d : DataComEndpoints)
    (ss : SignedSequence)
    (hrec : (x.Signer ss).2 = none) (hnz : (x.Signer ss).1 ≠ Address.zero)
    (hauth : (x.Signer ss).1 = d.sequencerTracker.GetAddr ∨
      (x.Signer ss).1 = d.permitApiAddress)
    (hstore : (storeStep x d ss).2.2 = none)
    (e : Error) (hsign : x.Sign ss.Sequence d.privateKey = Except.error e) :
    SignSequence x d ss =
      { calls := (storeStep x d ss).1 ++ [Call.Sign ss.Sequence d.privateKey]
        value := Value.str "0x0"
        err := some (NewRPCError x.DefaultErrorCode "failed to sign") } := by
  rw [SignSequence_of_authorized x d ss hrec hnz hauth, if_neg (not_not.mpr hstore), hsign]

theorem SignSequence_of_sign_ok (x : Externals) (d : DataComEndpoints)
    (ss : SignedSequence)
    (hrec : (x.Signer ss).2 = none) (hnz : (x.Signer ss).1 ≠ Address.zero)
    (hauth : (x.Signer ss).1 = d.sequencerTracker.GetAddr ∨
      (x.Signer ss).1 = d.permitApiAddress)
    (hstore : (storeStep x d ss).2.2 = none)
    (s : SignedSequence) (hsign : x.Sign ss.Sequence d.privateKey = Except.ok s) :
    SignSequence x d ss =
      { calls := (storeStep x d ss).1 ++ [Call.Sign ss.Sequence d.privateKey]
        value := Value.bytes s.Signature
        err := none } := by
  rw [SignSequence_of_authorized x d ss hrec hnz hauth, if_neg (not_not.mpr hstore), hsign]

theorem SignSequence_cases (x : Externals) (d : DataComEndpoints) (ss : SignedSequence) :
    (((x.Signer ss).2 ≠ none ∨ (x.Signer ss).1 = Address.zero) ∧
      SignSequence x d ss =
        { calls := []
          value := Value.str "0x0"
          err := some (NewRPCError x.DefaultErrorCode "failed to verify sender") }) ∨
    (((x.Signer ss).2 = none ∧ (x.Signer ss).1 ≠ Address.zero) ∧
      ((x.Signer ss).1 ≠ d.sequencerTracker.GetAddr ∧
        (x.Signer ss).1 ≠ d.permitApiAddress) ∧
      SignSequence x d ss =
        { calls := []
          value := Value.str "0x0"
          err := some (NewRPCError x.DefaultErrorCode "unauthorized") }) ∨
    (Authorized x d ss ∧ (storeStep x d ss).2.2 ≠ none ∧
      SignSequence x d ss =
        { calls := (storeStep x d ss).1
          value := Value.str "0x0"
          err := some (NewRPCError x.DefaultErrorCode "failed to store offchain data") }) ∨
    (Authorized x d ss ∧ (storeStep x d ss).2.2 = none ∧
      ∃ e, x.Sign ss.Sequence d.privateKey = Except.error e ∧
        SignSequence x d ss =
          { calls := (storeStep x d ss).1 ++ [Call.Sign ss.Sequence d.privateKey]
            value := Value.str "0x0"
            err := some (NewRPCError x.DefaultErrorCode "failed to sign") }) ∨
    (Authorized x d ss ∧ (storeStep x d ss).2.2 = none ∧
      ∃ s, x.Sign ss.Sequence d.privateKey = Except.ok s ∧
        SignSequence x d ss =
          { calls := (storeStep x d ss).1 ++ [Call.Sign ss.Sequence d.privateKey]
            value := Value.bytes s.Signature
            err := none }) := by
  by_cases hv : (x.Signer ss).2 ≠ none ∨ (x.Signer ss).1 = Address.zero
  · exact Or.inl ⟨hv, SignSequence_of_verify_fail x d ss hv⟩
  · have hrec : (x.Signer ss).2 = none := by
      by_contra h
      exact hv (Or.inl h)
    have hnz : (x.Signer ss).1 ≠ Address.zero := fun h => hv (Or.inr h)
    by_cases hu : (x.Signer ss).1 ≠ d.sequencerTracker.GetAddr ∧
        (x.Signer ss).1 ≠ d.permitApiAddress
    · exact Or.inr (Or.inl ⟨⟨hrec, hnz⟩, hu,
        SignSequence_of_unauthorized x d ss hrec hnz hu.1 hu.2⟩)
    · have hauth : (x.Signer ss).1 = d.sequencerTracker.GetAddr ∨
          (x.Signer ss).1 = d.permitApiAddress := by
        by_cases h1 : (x.Signer ss).1 = d.sequencerTracker.GetAddr
        · exact Or.inl h1
        · right
          by_contra h2
          exact hu ⟨h1, h2⟩
      have hA : Authorized x d ss := ⟨hrec, hnz, hauth⟩
      by_cases hs : (storeStep x d ss).2.2 ≠ none
      · exact Or.inr (Or.inr (Or.inl ⟨hA, hs,
          SignSequence_of_store_fail x d ss hrec hnz hauth hs⟩))
      · have hs2 : (storeStep x d ss).2.2 = none := not_not.mp hs
        cases hsign : x.Sign ss.Sequence d.privateKey with
        | error e =>
          exact Or.inr (Or.inr (Or.inr (Or.inl ⟨hA, hs2, e, rfl,
            SignSequence_of_sign_fail x d ss hrec hnz hauth hs2 e hsign⟩)))
        | ok s =>
          exact Or.inr (Or.inr (Or.inr (Or.inr ⟨hA, hs2, s, rfl,
            SignSequence_of_sign_ok x d ss hrec hnz hauth hs2 s hsign⟩)))

theorem not_authorized_of_verify_fail (x : Externals) (d : DataComEndpoints)
    (ss : SignedSequence)
    (h : (x.Signer ss).2 ≠ none ∨ (x.Signer ss).1 = Address.zero) : ¬ Authorized x d ss :=
  fun hA => h.elim (fun h1 => h1 hA.1) (fun h2 => hA.2.1 h2)

theorem not_authorized_of_neither (x : Externals) (d : DataComEndpoints)
    (ss : SignedSequence)
    (h : (x.Signer ss).1 ≠ d.sequencerTracker.GetAddr ∧
      (x.Signer ss).1 ≠ d.permitApiAddress) : ¬ Authorized x d ss :=
  fun hA => hA.2.2.elim h.1 h.2

/-! ## Claims about `SignSequence` -/

/-- C1, as stated, fails: the recovered sender is the zero address (recovery returns no error),
the sequencer address is 1 and the permit address is 2. The sender is neither of the two,
yet `SignSequence` answers "failed to verify sender", not "unauthorized". -/
theorem C1_counterexample :
    ((exampleExternals Address.zero none).Signer exampleSignedSequence).1 ≠
      (exampleEndpoints exampleDb (some 5) (Address.ofNat 1)
        (Address.ofNat 2)).sequencerTracker.GetAddr ∧
    ((exampleExternals Address.zero none).Signer exampleSignedSequence).1 ≠
      (exampleEndpoints exampleDb (some 5) (Address.ofNat 1)
        (Address.ofNat 2)).permitApiAddress ∧
    (SignSequence (exampleExternals Address.zero none)
      (exampleEndpoints exampleDb (some 5) (Address.ofNat 1) (Address.ofNat 2))
      exampleSignedSequence).err =
      some (NewRPCError (-32000) "failed to verify sender") ∧
    (SignSequence (exampleExternals Address.zero none)
      (exampleEndpoints exampleDb (some 5) (Address.ofNat 1) (Address.ofNat 2))
      exampleSignedSequence).err ≠
      some (NewRPCError (-32000) "unauthorized") := by
  decide

/-- C1, amended: when the recovered sender is neither the sequencer address nor the permit
address, `SignSequence` never reaches the store (no transaction scope, no
`StoreOffChainData`, no signing call) and returns the placeholder with an error; the error is
"unauthorized" whenever recovery succeeded with a sender that is not the zero address. -/
theorem C1_unlisted_sender_rejected (x : Externals) (d : DataComEndpoints)
    (ss : SignedSequence)
    (hseq : (x.Signer ss).1 ≠ d.sequencerTracker.GetAddr)
    (hper : (x.Signer ss).1 ≠ d.permitApiAddress) :
    (SignSequence x d ss).calls = [] ∧
    (SignSequence x d ss).value = Value.str "0x0" ∧
    (SignSequence x d ss).err ≠ none ∧
    ((x.Signer ss).2 = none → (x.Signer ss).1 ≠ Address.zero →
      (SignSequence x d ss).err =
        some (NewRPCError x.DefaultErrorCode "unauthorized")) := by
  by_cases hv : (x.Signer ss).2 ≠ none ∨ (x.Signer ss).1 = Address.zero
  · rw [SignSequence_of_verify_fail x d ss hv]
    refine ⟨rfl, rfl, by simp, ?_⟩
    intro hrec hnz
    exact absurd hv (fun h => h.elim (fun h1 => h1 hrec) hnz)
  · have hrec : (x.Signer ss).2 = none := by
      by_contra h
      exact hv (Or.inl h)
    have hnz : (x.Signer ss).1 ≠ Address.zero := fun h => hv (Or.inr h)
    rw [SignSequence_of_unauthorized x d ss hrec hnz hseq hper]
    exact ⟨rfl, rfl, by simp, fun _ _ => rfl⟩

/-- Witness for C1 (amended): sender 3, sequencer 1, permit 2. -/
theorem C1_unlisted_sender_rejected_witness :
    (SignSequence (exampleExternals (Address.ofNat 3) none)
      (exampleEndpoints exampleDb (some 5) (Address.ofNat 1) (Address.ofNat 2))
      exampleSignedSequence).calls = [] ∧
    (SignSequence (exampleExternals (Address.ofNat 3) none)
      (exampleEndpoints exampleDb (some 5) (Address.ofNat 1) (Address.ofNat 2))
      exampleSignedSequence).err = some (NewRPCError (-32000) "unauthorized") :=
  have h := C1_unlisted_sender_rejected (exampleExternals (Address.ofNat 3) none)
    (exampleEndpoints exampleDb (some 5) (Address.ofNat 1) (Address.ofNat 2))
    exampleSignedSequence (by decide) (by decide)
  ⟨h.1, h.2.2.2 (by decide) (by decide)⟩

/-- C2: when `Signer()` yields the zero address, then for every sequencer address and every
permit address (the zero address included) and whatever error `Signer()` returns with it,
`SignSequence` fails with "failed to verify sender" and makes no call at all: no transaction
scope, no `StoreOffChainData`, no `Sequence.Sign`. -/
theorem C2_zero_sender_never_authorized (x : Externals) (d : DataComEndpoints)
    (ss : SignedSequence) (hzero : (x.Signer ss).1 = Address.zero) :
    (SignSequence x d ss).err =
      some (NewRPCError x.DefaultErrorCode "failed to verify sender") ∧
    (SignSequence x d ss).value = Value.str "0x0" ∧
    (SignSequence x d ss).calls = [] := by
  rw [SignSequence_of_verify_fail x d ss (Or.inr hzero)]
  exact ⟨rfl, rfl, rfl⟩

/-- Witness for C2: zero sender while the sequencer address and the permit address are both
the zero address as well. -/
theorem C2_zero_sender_never_authorized_witness :
    (SignSequence (exampleExternals Address.zero none)
      (exampleEndpoints exampleDb (some 5) Address.zero Address.zero)
      exampleSignedSequence).err = some (NewRPCError (-32000) "failed to verify sender") ∧
    (SignSequence (exampleExternals Address.zero none)
      (exampleEndpoints exampleDb (some 5) Address.zero Address.zero)
      exampleSignedSequence).value = Value.str "0x0" ∧
    (SignSequence (exampleExternals Address.zero none)
      (exampleEndpoints exampleDb (some 5) Address.zero Address.zero)
      exampleSignedSequence).calls = [] :=
  C2_zero_sender_never_authorized (exampleExternals Address.zero none)
    (exampleEndpoints exampleDb (some 5) Address.zero Address.zero)
    exampleSignedSequence (by decide)

/-- C3: the order authorize, store, sign is fixed. If `Sequence.Sign` is called in an
execution of `SignSequence`, then the request was authorized, the transaction scope returned
no error, and the calls of the execution are exactly those of the store step (entry into
`NewDbTxScope`, the `StoreOffChainData` calls of the scope, return from `NewDbTxScope`)
followed by that one `Sign` call. If the transaction scope was entered and returned an error,
`SignSequence` returns "failed to store offchain data" and `Sign` is not called. -/
theorem C3_sign_after_authorize_and_store (x : Externals) (d : DataComEndpoints)
    (ss : SignedSequence) :
    (∀ s k, Call.Sign s k ∈ (SignSequence x d ss).calls →
      Authorized x d ss ∧ (storeStep x d ss).2.2 = none ∧
      (SignSequence x d ss).calls =
        [Call.NewDbTxScope] ++
          x.scopes.map
            (fun p => Call.StoreOffChainData p.1 (x.OffChainData ss.Sequence) p.2) ++
          [Call.NewDbTxScopeReturn] ++ [Call.Sign ss.Sequence d.privateKey]) ∧
    (Call.NewDbTxScope ∈ (SignSequence x d ss).calls → (storeStep x d ss).2.2 ≠ none →
      (SignSequence x d ss).err =
        some (NewRPCError x.DefaultErrorCode "failed to store offchain data") ∧
      (SignSequence x d ss).value = Value.str "0x0" ∧
      ∀ s k, Call.Sign s k ∉ (SignSequence x d ss).calls) := by
  rcases SignSequence_cases x d ss with ⟨_, hS⟩ | ⟨_, _, hS⟩ | ⟨_, hs, hS⟩ |
      ⟨hA, hs, e, _, hS⟩ | ⟨hA, hs, s, _, hS⟩
  · rw [hS]
    simp
  · rw [hS]
    simp
  · rw [hS]
    refine ⟨?_, ?_⟩
    · intro s k hmem
      simp [storeStep_calls] at hmem
    · intro _ _
      refine ⟨rfl, rfl, ?_⟩
      intro s k hmem
      simp [storeStep_calls] at hmem
  · rw [hS]
    refine ⟨?_, ?_⟩
    · intro s k _
      refine ⟨hA, hs, ?_⟩
      simp [storeStep_calls]
    · intro _ hne
      exact absurd hs hne
  · rw [hS]
    refine ⟨?_, ?_⟩
    · intro s k _
      refine ⟨hA, hs, ?_⟩
      simp [storeStep_calls]
    · intro _ hne
      exact absurd hs hne

/-- Witness for C3: an authorized request on a working database (sender and sequencer 1,
key 5), where `Sign` is called last, and the same request on a failing database, where the
scope is entered, fails, and `Sign` is not called. -/
theorem C3_sign_after_authorize_and_store_witness :
    (Authorized (exampleExternals (Address.ofNat 1) none)
        (exampleEndpoints exampleDb (some 5) (Address.ofNat 1) Address.zero)
        exampleSignedSequence ∧
      (storeStep (exampleExternals (Address.ofNat 1) none)
        (exampleEndpoints exampleDb (some 5) (Address.ofNat 1) Address.zero)
        exampleSignedSequence).2.2 = none ∧
      (SignSequence (exampleExternals (Address.ofNat 1) none)
        (exampleEndpoints exampleDb (some 5) (Address.ofNat 1) Address.zero)
        exampleSignedSequence).calls =
        [Call.NewDbTxScope] ++
          (exampleExternals (Address.ofNat 1) none).scopes.map
            (fun p => Call.StoreOffChainData p.1
              ((exampleExternals (Address.ofNat 1) none).OffChainData
                exampleSignedSequence.Sequence) p.2) ++
          [Call.NewDbTxScopeReturn] ++ [Call.Sign exampleSignedSequence.Sequence (some 5)]) ∧
    ((SignSequence (exampleExternals (Address.ofNat 1) none)
        (exampleEndpoints failingDb (some 5) (Address.ofNat 1) Address.zero)
        exampleSignedSequence).err =
        some (NewRPCError (-32000) "failed to store offchain data") ∧
      (SignSequence (exampleExternals (Address.ofNat 1) none)
        (exampleEndpoints failingDb (some 5) (Address.ofNat 1) Address.zero)
        exampleSignedSequence).value = Value.str "0x0" ∧
      ∀ s k, Call.Sign s k ∉
        (SignSequence (exampleExternals (Address.ofNat 1) none)
          (exampleEndpoints failingDb (some 5) (Address.ofNat 1) Address.zero)
          exampleSignedSequence).calls) :=
  ⟨(C3_sign_after_authorize_and_store (exampleExternals (Address.ofNat 1) none)
      (exampleEndpoints exampleDb (some 5) (Address.ofNat 1) Address.zero)
      exampleSignedSequence).1 exampleSignedSequence.Sequence (some 5) (by decide),
    (C3_sign_after_authorize_and_store (exampleExternals (Address.ofNat 1) none)
      (exampleEndpoints failingDb (some 5) (Address.ofNat 1) Address.zero)
      exampleSignedSequence).2 (by decide) (by decide)⟩

/-- C4: `SignSequence` returns a nil error exactly when the request is authorized (recovery
succeeds, the sender is not the zero address and equals the sequencer or the permit address),
the transaction scope returns no error, and `Sequence.Sign` with the private key of the node
succeeds; the value returned is then the `Signature` field of what that `Sign` call returned
for the submitted sequence. -/
theorem C4_success_iff_all_steps_succeed (x : Externals) (d : DataComEndpoints)
    (ss : SignedSequence) :
    ((SignSequence x d ss).err = none ↔
      Authorized x d ss ∧ (storeStep x d ss).2.2 = none ∧
        ∃ s, x.Sign ss.Sequence d.privateKey = Except.ok s) ∧
    ((SignSequence x d ss).err = none →
      ∃ s, x.Sign ss.Sequence d.privateKey = Except.ok s ∧
        (SignSequence x d ss).value = Value.bytes s.Signature) := by
  rcases SignSequence_cases x d ss with ⟨hv, hS⟩ | ⟨_, hu, hS⟩ | ⟨_, hs, hS⟩ |
      ⟨hA, hs, e, hsign, hS⟩ | ⟨hA, hs, s, hsign, hS⟩
  · rw [hS]
    have hnA := not_authorized_of_verify_fail x d ss hv
    simp [hnA]
  · rw [hS]
    have hnA := not_authorized_of_neither x d ss hu
    simp [hnA]
  · rw [hS]
    simp [hs]
  · rw [hS]
    simp [hsign]
  · rw [hS]
    simp [hA, hs, hsign]

/-- Witness for C4: sender and sequencer 1, key 5, working database; the value returned is
the signature made with key 5, not the incoming signature `[9]`. -/
theorem C4_success_iff_all_steps_succeed_witness :
    ∃ s, (exampleExternals (Address.ofNat 1) none).Sign exampleSignedSequence.Sequence
        (exampleEndpoints exampleDb (some 5) (Address.ofNat 1) Address.zero).privateKey =
        Except.ok s ∧
      (SignSequence (exampleExternals (Address.ofNat 1) none)
        (exampleEndpoints exampleDb (some 5) (Address.ofNat 1) Address.zero)
        exampleSignedSequence).value = Value.bytes s.Signature :=
  (C4_success_iff_all_steps_succeed (exampleExternals (Address.ofNat 1) none)
    (exampleEndpoints exampleDb (some 5) (Address.ofNat 1) Address.zero)
    exampleSignedSequence).2 (by decide)

/-- C5: whenever `SignSequence` returns an error, the value returned with it is the
placeholder "0x0", the error carries the default error code, and its message is fixed by the
first step that fails, in the order recover the sender, authorize, store, sign. -/
theorem C5_error_is_first_failing_step (x : Externals) (d : DataComEndpoints)
    (ss : SignedSequence) (e : RPCError) (he : (SignSequence x d ss).err = some e) :
    (SignSequence x d ss).value = Value.str "0x0" ∧
    e.code = x.DefaultErrorCode ∧
    ((((x.Signer ss).2 ≠ none ∨ (x.Signer ss).1 = Address.zero) ∧
        e.message = "failed to verify sender") ∨
      (((x.Signer ss).2 = none ∧ (x.Signer ss).1 ≠ Address.zero) ∧
        ((x.Signer ss).1 ≠ d.sequencerTracker.GetAddr ∧
          (x.Signer ss).1 ≠ d.permitApiAddress) ∧
        e.message = "unauthorized") ∨
      (Authorized x d ss ∧ (storeStep x d ss).2.2 ≠ none ∧
        e.message = "failed to store offchain data") ∨
      (Authorized x d ss ∧ (storeStep x d ss).2.2 = none ∧
        (∃ e2, x.Sign ss.Sequence d.privateKey = Except.error e2) ∧
        e.message = "failed to sign")) := by
  rcases SignSequence_cases x d ss with ⟨hv, hS⟩ | ⟨hr, hu, hS⟩ | ⟨hA, hs, hS⟩ |
      ⟨hA, hs, e2, hsign, hS⟩ | ⟨hA, hs, s, hsign, hS⟩
  · rw [hS] at he ⊢
    simp only [Option.some.injEq] at he
    subst he
    exact ⟨rfl, rfl, Or.inl ⟨hv, rfl⟩⟩
  · rw [hS] at he ⊢
    simp only [Option.some.injEq] at he
    subst he
    exact ⟨rfl, rfl, Or.inr (Or.inl ⟨hr, hu, rfl⟩)⟩
  · rw [hS] at he ⊢
    simp only [Option.some.injEq] at he
    subst he
    exact ⟨rfl, rfl, Or.inr (Or.inr (Or.inl ⟨hA, hs, rfl⟩))⟩
  · rw [hS] at he ⊢
    simp only [Option.some.injEq] at he
    subst he
    exact ⟨rfl, rfl, Or.inr (Or.inr (Or.inr ⟨hA, hs, ⟨e2, hsign⟩, rfl⟩))⟩
  · rw [hS] at he
    simp at he

/-- Witness for C5: an authorized request on a failing database. -/
theorem C5_error_is_first_failing_step_witness :
    (SignSequence (exampleExternals (Address.ofNat 1) none)
      (exampleEndpoints failingDb (some 5) (Address.ofNat 1) Address.zero)
      exampleSignedSequence).value = Value.str "0x0" :=
  (C5_error_is_first_failing_step (exampleExternals (Address.ofNat 1) none)
    (exampleEndpoints failingDb (some 5) (Address.ofNat 1) Address.zero)
    exampleSignedSequence (NewRPCError (-32000) "failed to store offchain data")
    (by decide)).1

/-- C6, as stated, fails: the node has no private key (nil), the sender is the sequencer
(address 1) and the database works. The request is not refused: the transaction scope runs,
`StoreOffChainData` is called, and `Sequence.Sign` is called with the nil key. -/
theorem C6_counterexample :
    (exampleEndpoints exampleDb none (Address.ofNat 1) Address.zero).privateKey = none ∧
    (SignSequence (exampleExternals (Address.ofNat 1) none)
      (exampleEndpoints exampleDb none (Address.ofNat 1) Address.zero)
      exampleSignedSequence).calls =
      [Call.NewDbTxScope,
        Call.StoreOffChainData Context.Background
          [(exampleHash [1, 2], [1, 2]), (exampleHash [3], [3])] 7,
        Call.NewDbTxScopeReturn,
        Call.Sign [[1, 2], [3]] none] := by
  decide

/-- C6, amended: `SignSequence` does not look at the private key before the sign step. With a
nil key a request is turned away without any call exactly when it is not authorized. For an
authorized request the transaction scope runs with its `StoreOffChainData` calls; if the
scope returns an error nothing follows, and if it returns none `Sequence.Sign` is called with
the nil key, the request succeeds exactly when that call succeeds, and fails with
"failed to sign" when that call fails. -/
theorem C6_nil_key_reaches_store_and_sign (x : Externals) (d : DataComEndpoints)
    (ss : SignedSequence) (hkey : d.privateKey = none) :
    ((SignSequence x d ss).calls = [] ↔ ¬ Authorized x d ss) ∧
    (Authorized x d ss →
      ∃ rest,
        (SignSequence x d ss).calls =
          [Call.NewDbTxScope] ++
            x.scopes.map
              (fun p => Call.StoreOffChainData p.1 (x.OffChainData ss.Sequence) p.2) ++
            [Call.NewDbTxScopeReturn] ++ rest ∧
        ((storeStep x d ss).2.2 ≠ none → rest = []) ∧
        ((storeStep x d ss).2.2 = none →
          rest = [Call.Sign ss.Sequence none] ∧
          ((SignSequence x d ss).err = none ↔ ∃ s, x.Sign ss.Sequence none = Except.ok s) ∧
          ((∃ e, x.Sign ss.Sequence none = Except.error e) →
            (SignSequence x d ss).err =
              some (NewRPCError x.DefaultErrorCode "failed to sign")))) := by
  rcases SignSequence_cases x d ss with ⟨hv, hS⟩ | ⟨_, hu, hS⟩ | ⟨hA, hs, hS⟩ |
      ⟨hA, hs, e, hsign, hS⟩ | ⟨hA, hs, s, hsign, hS⟩
  · rw [hS]
    have hnA := not_authorized_of_verify_fail x d ss hv
    simp [hnA]
  · rw [hS]
    have hnA := not_authorized_of_neither x d ss hu
    simp [hnA]
  · rw [hS]
    refine ⟨by simp [hA, storeStep_calls], fun _ => ⟨[], ?_, fun _ => rfl, ?_⟩⟩
    · simp [storeStep_calls]
    · intro h
      exact absurd h hs
  · rw [hS]
    rw [hkey] at hsign ⊢
    refine ⟨by simp [hA, storeStep_calls], fun _ => ⟨[Call.Sign ss.Sequence none], ?_, ?_, ?_⟩⟩
    · simp [storeStep_calls]
    · intro h
      exact absurd hs h
    · intro _
      refine ⟨rfl, ?_, fun _ => rfl⟩
      simp [hsign]
  · rw [hS]
    rw [hkey] at hsign ⊢
    refine ⟨by simp [hA, storeStep_calls], fun _ => ⟨[Call.Sign ss.Sequence none], ?_, ?_, ?_⟩⟩
    · simp [storeStep_calls]
    · intro h
      exact absurd hs h
    · intro _
      refine ⟨rfl, ?_, ?_⟩
      · simp [hsign]
      · rintro ⟨e, he⟩
        rw [hsign] at he
        cases he

/-- Witness for C6 (amended): nil key, sender and sequencer 1, working database. The calls
are not empty, although the key is nil. -/
theorem C6_nil_key_reaches_store_and_sign_witness :
    ((SignSequence (exampleExternals (Address.ofNat 1) none)
        (exampleEndpoints exampleDb none (Address.ofNat 1) Address.zero)
        exampleSignedSequence).calls = [] ↔
      ¬ Authorized (exampleExternals (Address.ofNat 1) none)
        (exampleEndpoints exampleDb none (Address.ofNat 1) Address.zero)
        exampleSignedSequence) :=
  (C6_nil_key_reaches_store_and_sign (exampleExternals (Address.ofNat 1) none)
    (exampleEndpoints exampleDb none (Address.ofNat 1) Address.zero)
    exampleSignedSequence (by decide)).1

/-- C9, as stated, fails: the sender is the sequencer (address 1), so the request passes
authorization, but the transaction manager cannot open a transaction and performs no run of
the scoped function. `NewDbTxScope` is called once and `StoreOffChainData` is not called at
all, where the claim says exactly once. -/
theorem C9_counterexample :
    Authorized (closedExternals (Address.ofNat 1) none)
      (exampleEndpoints exampleDb (some 5) (Address.ofNat 1) Address.zero)
      exampleSignedSequence ∧
    (SignSequence (closedExternals (Address.ofNat 1) none)
      (exampleEndpoints exampleDb (some 5) (Address.ofNat 1) Address.zero)
      exampleSignedSequence).calls = [Call.NewDbTxScope, Call.NewDbTxScopeReturn] ∧
    ((SignSequence (closedExternals (Address.ofNat 1) none)
      (exampleEndpoints exampleDb (some 5) (Address.ofNat 1) Address.zero)
      exampleSignedSequence).calls.filter Call.isStore).length = 0 := by
  decide

/-- C9, amended: in every execution of `SignSequence` that passes authorization,
`NewDbTxScope` is called exactly once; every `StoreOffChainData` call of the execution lies
between the entry into that call and its return; each run of the scoped function makes
exactly one `StoreOffChainData` call, with the context and the transaction of that run and
the complete mapping `Sequence.OffChainData()`, so the execution holds as many
`StoreOffChainData` calls as the manager performs runs; after the return nothing follows but
at most the `Sign` call. When the manager runs the scoped function once, in transaction
`dbTx`, the execution holds exactly one `StoreOffChainData` call, inside the scope and with
`dbTx`. -/
theorem C9_store_in_one_transaction_scope (x : Externals) (d : DataComEndpoints)
    (ss : SignedSequence) (hauth : Authorized x d ss) :
    (∃ rest, (rest = [] ∨ rest = [Call.Sign ss.Sequence d.privateKey]) ∧
      (SignSequence x d ss).calls =
        [Call.NewDbTxScope] ++
          x.scopes.map
            (fun p => Call.StoreOffChainData p.1 (x.OffChainData ss.Sequence) p.2) ++
          [Call.NewDbTxScopeReturn] ++ rest) ∧
    (SignSequence x d ss).calls.count Call.NewDbTxScope = 1 ∧
    (∀ ctx dbTx, (SignSequence.scopedFn x d ss ctx dbTx).1 =
      [Call.StoreOffChainData ctx (x.OffChainData ss.Sequence) dbTx]) ∧
    (SignSequence x d ss).calls.filter Call.isStore =
      x.scopes.map
        (fun p => Call.StoreOffChainData p.1 (x.OffChainData ss.Sequence) p.2) ∧
    ((SignSequence x d ss).calls.filter Call.isStore).length = x.scopes.length ∧
    (∀ ctx dbTx, x.scopes = [(ctx, dbTx)] →
      ∃ rest, (rest = [] ∨ rest = [Call.Sign ss.Sequence d.privateKey]) ∧
        (SignSequence x d ss).calls =
          [Call.NewDbTxScope,
            Call.StoreOffChainData ctx (x.OffChainData ss.Sequence) dbTx,
            Call.NewDbTxScopeReturn] ++ rest) := by
  have hform : ∃ rest, (rest = [] ∨ rest = [Call.Sign ss.Sequence d.privateKey]) ∧
      (SignSequence x d ss).calls =
        [Call.NewDbTxScope] ++
          x.scopes.map
            (fun p => Call.StoreOffChainData p.1 (x.OffChainData ss.Sequence) p.2) ++
          [Call.NewDbTxScopeReturn] ++ rest := by
    rcases SignSequence_cases x d ss with ⟨hv, _⟩ | ⟨_, hu, _⟩ | ⟨_, _, hS⟩ |
        ⟨_, _, e, _, hS⟩ | ⟨_, _, s, _, hS⟩
    · exact absurd hauth (not_authorized_of_verify_fail x d ss hv)
    · exact absurd hauth (not_authorized_of_neither x d ss hu)
    · exact ⟨[], Or.inl rfl, by rw [hS]; simp [storeStep_calls]⟩
    · exact ⟨_, Or.inr rfl, by rw [hS]; simp [storeStep_calls]⟩
    · exact ⟨_, Or.inr rfl, by rw [hS]; simp [storeStep_calls]⟩
  have hfilter : (SignSequence x d ss).calls.filter Call.isStore =
      x.scopes.map
        (fun p => Call.StoreOffChainData p.1 (x.OffChainData ss.Sequence) p.2) := by
    obtain ⟨rest, hrest, hcalls⟩ := hform
    rw [hcalls]
    simp only [List.filter_append, filter_isStore_stores]
    rcases hrest with h | h <;> subst h <;> simp [Call.isStore]
  refine ⟨hform, ?_, fun ctx dbTx => scopedFn_calls x d ss ctx dbTx, hfilter, ?_, ?_⟩
  · obtain ⟨rest, hrest, hcalls⟩ := hform
    rw [hcalls]
    have hmap : List.count Call.NewDbTxScope (x.scopes.map
        (fun p => Call.StoreOffChainData p.1 (x.OffChainData ss.Sequence) p.2)) = 0 := by
      rw [List.count_eq_zero]
      simp
    rcases hrest with h | h <;> subst h <;> simp [List.count_cons, hmap]
  · rw [hfilter, List.length_map]
  · intro ctx dbTx hsc
    obtain ⟨rest, hrest, hcalls⟩ := hform
    refine ⟨rest, hrest, ?_⟩
    rw [hcalls, hsc]
    rfl

/-- Witness for C9 (amended): sender and sequencer 1, working database, a manager that runs
the scoped function once in transaction 7. -/
theorem C9_store_in_one_transaction_scope_witness :
    ∃ rest, (rest = [] ∨ rest = [Call.Sign exampleSignedSequence.Sequence
        (exampleEndpoints exampleDb (some 5) (Address.ofNat 1) Address.zero).privateKey]) ∧
      (SignSequence (exampleExternals (Address.ofNat 1) none)
        (exampleEndpoints exampleDb (some 5) (Address.ofNat 1) Address.zero)
        exampleSignedSequence).calls =
        [Call.NewDbTxScope,
          Call.StoreOffChainData Context.Background
            ((exampleExternals (Address.ofNat 1) none).OffChainData
              exampleSignedSequence.Sequence) 7,
          Call.NewDbTxScopeReturn] ++ rest :=
  (C9_store_in_one_transaction_scope (exampleExternals (Address.ofNat 1) none)
    (exampleEndpoints exampleDb (some 5) (Address.ofNat 1) Address.zero)
    exampleSignedSequence (by decide)).2.2.2.2.2 Context.Background 7 rfl

/-- C10: `NewDataComEndpoints` leaves the permit address at the zero address, whatever the
database, the key and the tracker. For endpoints built by it, `SignSequence` passes the
authorization step (it enters the transaction scope; equivalently, it returns neither
"failed to verify sender" nor "unauthorized") if and only if sender recovery succeeds with a
sender that is not the zero address and equals the current address of the tracker. -/
theorem C10_constructor_leaves_permit_zero (db : DBInterface) (privateKey : Option PrivateKey)
    (sequencerTracker : SequencerTracker) :
    (NewDataComEndpoints db privateKey sequencerTracker).permitApiAddress = Address.zero ∧
    ∀ (x : Externals) (ss : SignedSequence),
      (Call.NewDbTxScope ∈
          (SignSequence x (NewDataComEndpoints db privateKey sequencerTracker) ss).calls ↔
        (x.Signer ss).2 = none ∧ (x.Signer ss).1 ≠ Address.zero ∧
          (x.Signer ss).1 = sequencerTracker.GetAddr) ∧
      (((SignSequence x (NewDataComEndpoints db privateKey sequencerTracker) ss).err ≠
            some (NewRPCError x.DefaultErrorCode "failed to verify sender") ∧
          (SignSequence x (NewDataComEndpoints db privateKey sequencerTracker) ss).err ≠
            some (NewRPCError x.DefaultErrorCode "unauthorized")) ↔
        (x.Signer ss).2 = none ∧ (x.Signer ss).1 ≠ Address.zero ∧
          (x.Signer ss).1 = sequencerTracker.GetAddr) := by
  refine ⟨rfl, fun x ss => ?_⟩
  have hiff : Authorized x (NewDataComEndpoints db privateKey sequencerTracker) ss ↔
      ((x.Signer ss).2 = none ∧ (x.Signer ss).1 ≠ Address.zero ∧
        (x.Signer ss).1 = sequencerTracker.GetAddr) := by
    unfold Authorized NewDataComEndpoints
    constructor
    · rintro ⟨h1, h2, h3 | h3⟩
      · exact ⟨h1, h2, h3⟩
      · exact absurd h3 h2
    · rintro ⟨h1, h2, h3⟩
      exact ⟨h1, h2, Or.inl h3⟩
  rw [← hiff]
  rcases SignSequence_cases x (NewDataComEndpoints db privateKey sequencerTracker) ss with
    ⟨hv, hS⟩ | ⟨_, hu, hS⟩ | ⟨hA, _, hS⟩ | ⟨hA, _, e, _, hS⟩ | ⟨hA, _, s, _, hS⟩
  · rw [hS]
    have hnA := not_authorized_of_verify_fail x
      (NewDataComEndpoints db privateKey sequencerTracker) ss hv
    simp [hnA]
  · rw [hS]
    have hnA := not_authorized_of_neither x
      (NewDataComEndpoints db privateKey sequencerTracker) ss hu
    simp [hnA]
  · rw [hS]
    simp [hA, storeStep_calls, NewRPCError]
  · rw [hS]
    simp [hA, storeStep_calls, NewRPCError]
  · rw [hS]
    simp [hA, storeStep_calls]

/-! ## Claims about `resolveWithMember` -/

/-- C7, as stated, fails for every hash function: a peer that answers every request with the
empty payload and a nil error is accepted for the keys 0 and 1 alike, and the empty payload
cannot hash to both. -/
theorem C7_counterexample :
    ¬ ∃ keccak : Bytes → Hash,
      ∀ (net : Network) (key : Hash) (member : DataCommitteeMember),
        (resolveWithMember net key member).err = none →
          (resolveWithMember net key member).data.Key =
            keccak (resolveWithMember net key member).data.Value := by
  rintro ⟨keccak, h⟩
  have h0 := h (fun _ => ([], none)) ⟨0, by norm_num⟩ { Addr := Address.zero, URL := "peer" } rfl
  have h1 := h (fun _ => ([], none)) ⟨1, by norm_num⟩ { Addr := Address.zero, URL := "peer" } rfl
  have h01 : (⟨0, by norm_num⟩ : Hash) = ⟨1, by norm_num⟩ := h0.trans h1.symm
  exact absurd (congrArg Fin.val h01) (by decide)

/-- C7, amended: `resolveWithMember` makes no hash check. The record it returns has the
requested key as `Key` and the bytes of the peer reply as `Value`, and its error is exactly
the error of the `GetOffChainData` call: the reply is accepted (nil error) if and only if that
call returned a nil error, whatever the bytes hash to. -/
theorem C7_reply_passed_through (net : Network) (key : Hash)
    (member : DataCommitteeMember) :
    (resolveWithMember net key member).data =
      { Key := key
        Value := (net { url := member.URL
                        ctx := { timeout := some (3 * 1000000000) }
                        key := key }).1 } ∧
    (resolveWithMember net key member).err =
      (net { url := member.URL, ctx := { timeout := some (3 * 1000000000) }, key := key }).2 :=
  ⟨rfl, rfl⟩

/-- C8: for every key and member, `resolveWithMember` sends exactly one `GetOffChainData`
request; it goes to the URL of that member, asks for the given key, and carries a timeout of
3 seconds (3 000 000 000 ns), the constant `rpcTimeout`, whatever the key and the member. -/
theorem C8_one_request_with_fixed_timeout (net : Network) (key : Hash)
    (member : DataCommitteeMember) :
    (resolveWithMember net key member).requests =
      [{ url := member.URL, ctx := { timeout := some (3 * 1000000000) }, key := key }] ∧
    rpcTimeout = 3 * 1000000000 ∧
    (resolveWithMember net key member).requests.length = 1 :=
  ⟨rfl, rfl, rfl⟩

end DataAvailability
